import Mathlib

/-!
Verification of the LUNARA backend (src/index.ts, src/schema.sql): the
loyalty-points and order-settlement engine.  Numbers that JavaScript holds
as IEEE doubles are embedded as exact rationals; `Math.floor` over real
division becomes `Int.floor` over the rationals, which for the magnitudes
handled by the shop coincides with the float computation.  Monetary amounts
and point balances are integers (minor units), as in the D1 schema.
-/

/-- One entry of `POINTS_CONFIG.TIERS` (src/index.ts lines 81 to 85).
JavaScript writes the NOVA upper bound as `Infinity`; here an unbounded
`max` is `none`.  The float `bonusMultiplier` is an exact rational. -/
structure Tier where
  name : String
  min : Int
  max : Option Int
  bonusMultiplier : Rat
deriving DecidableEq

/-- The MOON tier, `{ name: 'MOON', min: 0, max: 499, bonusMultiplier: 1.0 }`. -/
def tierMOON : Tier := ⟨"MOON", 0, some 499, 1⟩

/-- The ECLIPSE tier, `{ name: 'ECLIPSE', min: 500, max: 1499, bonusMultiplier: 1.1 }`. -/
def tierECLIPSE : Tier := ⟨"ECLIPSE", 500, some 1499, 11 / 10⟩

/-- The NOVA tier, `{ name: 'NOVA', min: 1500, max: Infinity, bonusMultiplier: 1.25 }`. -/
def tierNOVA : Tier := ⟨"NOVA", 1500, none, 5 / 4⟩

/-- The `POINTS_CONFIG` object (src/index.ts lines 68 to 86). -/
structure PointsConfig where
  EARN_PER_EURO : Int
  SIGNUP_BONUS : Int
  NEWSLETTER_BONUS : Int
  REVIEW_BONUS : Int
  POINTS_PER_EURO_DISCOUNT : Int
  MAX_DISCOUNT_PERCENT : Int
  MIN_ORDER_FOR_REDEMPTION : Int
  TIERS : List Tier

/-- The concrete configuration shipped with the shop. -/
def POINTS_CONFIG : PointsConfig :=
  { EARN_PER_EURO := 1
    SIGNUP_BONUS := 50
    NEWSLETTER_BONUS := 25
    REVIEW_BONUS := 100
    POINTS_PER_EURO_DISCOUNT := 20
    MAX_DISCOUNT_PERCENT := 20
    MIN_ORDER_FOR_REDEMPTION := 30
    TIERS := [tierMOON, tierECLIPSE, tierNOVA] }

/-- The predicate `t => points >= t.min && points <= t.max` used by `getTier`
(src/index.ts line 115).  With `max = Infinity` the upper comparison is
always true. -/
def tierMatches (points : Int) (t : Tier) : Bool :=
  decide (t.min ≤ points) &&
    (match t.max with
     | none => true
     | some m => decide (points ≤ m))

/-- `getTier` (src/index.ts lines 114 to 116):
`TIERS.find(t => points >= t.min && points <= t.max) || TIERS[0]`.
`tierMOON` is `POINTS_CONFIG.TIERS[0]`, the fallback. -/
def getTier (points : Int) : Tier :=
  (POINTS_CONFIG.TIERS.find? (tierMatches points)).getD tierMOON

/-- `calculatePointsEarned` (src/index.ts lines 118 to 122):
`euros = amountCents / 100`, `basePoints = Math.floor(euros * EARN_PER_EURO)`,
result `Math.floor(basePoints * tier.bonusMultiplier)`. -/
def calculatePointsEarned (amountCents : Int) (tier : Tier) : Int :=
  let euros : Rat := (amountCents : Rat) / 100
  let basePoints : Int := ⌊euros * (POINTS_CONFIG.EARN_PER_EURO : Rat)⌋
  ⌊(basePoints : Rat) * tier.bonusMultiplier⌋

/-- `calculateMaxDiscount` (src/index.ts lines 124 to 130).  Returns the pair
`(maxPoints, maxDiscountCents)`. -/
def calculateMaxDiscount (cartTotalCents pointsBalance : Int) : Int × Int :=
  let maxByPercent : Int :=
    ⌊(cartTotalCents : Rat) * ((POINTS_CONFIG.MAX_DISCOUNT_PERCENT : Rat) / 100)⌋
  let maxByBalance : Int :=
    ⌊(pointsBalance : Rat) / (POINTS_CONFIG.POINTS_PER_EURO_DISCOUNT : Rat)⌋ * 100
  let maxDiscountCents : Int := min maxByPercent maxByBalance
  let maxPoints : Int :=
    ⌊(maxDiscountCents : Rat) / 100 * (POINTS_CONFIG.POINTS_PER_EURO_DISCOUNT : Rat)⌋
  (maxPoints, maxDiscountCents)

/-- JavaScript `a || b` applied to a number field that may be absent:
`undefined` and `0` are falsy and select the default. -/
def jsOr (v : Option Int) (d : Int) : Int :=
  match v with
  | none => d
  | some x => if x = 0 then d else x

/-- The JSON body answered by `POST /api/points/calculate-discount`
(src/index.ts lines 434 to 441). -/
structure DiscountResponse where
  pointsAvailable : Int
  maxPointsUsable : Int
  maxDiscountCents : Int
  pointsToUse : Int
  discountCents : Int
  newTotal : Int
deriving DecidableEq

deriving instance DecidableEq for Except

/-- The `/api/points/calculate-discount` handler (src/index.ts lines 407 to
442) after session and user resolution: inputs are the request fields
`cartTotalCents` and `pointsToUse` and the points balance of the user row.
The handler rejects carts under `MIN_ORDER_FOR_REDEMPTION * 100` cents. -/
def calculateDiscountEndpoint (cartTotalCents pointsBalance : Int)
    (pointsToUse : Option Int) : Except String DiscountResponse :=
  if cartTotalCents < POINTS_CONFIG.MIN_ORDER_FOR_REDEMPTION * 100 then
    .error "Mindestbestellwert"
  else
    let md := calculateMaxDiscount cartTotalCents pointsBalance
    let maxPoints := md.1
    let maxDiscountCents := md.2
    let actualPointsToUse := min (jsOr pointsToUse maxPoints) maxPoints
    let discountCents :=
      ⌊(actualPointsToUse : Rat) / (POINTS_CONFIG.POINTS_PER_EURO_DISCOUNT : Rat)⌋ * 100
    .ok
      { pointsAvailable := pointsBalance
        maxPointsUsable := maxPoints
        maxDiscountCents := maxDiscountCents
        pointsToUse := actualPointsToUse
        discountCents := discountCents
        newTotal := cartTotalCents - discountCents }

/-- Modelled from the spec: `computeRedemption` as section 4.3 of the spec
words it, step by step, with `requestedPoints or maxPointsUsable` read as
defaulting an omitted field.  Written to be compared with the handler
translated from the code. -/
structure RedemptionSpec where
  maxByPercent : Int
  maxByBalance : Int
  maxDiscountAmount : Int
  maxPointsUsable : Int
  pointsToUse : Int
  discountAmount : Int
deriving DecidableEq

/-- Modelled from the spec: the formula list of section 4.3 (steps 2 to 7)
with `MAX_DISCOUNT_PERCENT = 20`, `POINTS_PER_UNIT_DISCOUNT = 20` and
`unitValue = 100` minor units. -/
def computeRedemptionSpec (cartSubtotal pointsBalance : Int)
    (requestedPoints : Option Int) : RedemptionSpec :=
  let maxByPercent : Int := ⌊(cartSubtotal : Rat) * 20 / 100⌋
  let maxByBalance : Int := ⌊(pointsBalance : Rat) / 20⌋ * 100
  let maxDiscountAmount : Int := min maxByPercent maxByBalance
  let maxPointsUsable : Int := ⌊(maxDiscountAmount : Rat) / 100 * 20⌋
  let pointsToUse : Int := min (requestedPoints.getD maxPointsUsable) maxPointsUsable
  let discountAmount : Int := ⌊(pointsToUse : Rat) / 20⌋ * 100
  ⟨maxByPercent, maxByBalance, maxDiscountAmount, maxPointsUsable, pointsToUse, discountAmount⟩

/-- An item of the cart posted to `/api/checkout/create-session`
(src/index.ts lines 56 to 62): `price` is a float amount in euros, embedded
as an exact rational.  The name and variant fields do not influence any
amount and are omitted. -/
structure CartItem where
  price : Rat
  quantity : Int
deriving DecidableEq

/-- JavaScript `Math.round`: round half away from zero for positive halves,
which is floor of the argument plus one half. -/
def jsRound (q : Rat) : Int := ⌊q + 1 / 2⌋

/-- The cart subtotal of the checkout handler (src/index.ts lines 464 to
469): `Math.round(item.price * 100) * item.quantity` summed. -/
def subtotalOf (items : List CartItem) : Int :=
  (items.map (fun it => jsRound (it.price * 100) * it.quantity)).sum

/-- A row of the `users` table (src/schema.sql lines 5 to 17).  Columns
that never influence points, tiers, ledger entries or orders
(password hash, name, timestamps, verification and reset tokens) are
omitted. -/
structure UserRow where
  id : String
  email : String
  points_balance : Int
  tier : String
deriving DecidableEq

/-- A row of the `points_transactions` table (src/schema.sql lines 23 to
32); `txnType` stands for the column named `type`. -/
structure PointsTransaction where
  id : String
  user_id : String
  amount : Int
  txnType : String
  source : String
  reference_id : Option String
deriving DecidableEq

/-- A row of the `orders` table (src/schema.sql lines 38 to 55), without the
timestamp, address and Stripe-session columns which no claim touches.
`points_earned` defaults to 0 until settlement fills it. -/
structure OrderRow where
  id : String
  user_id : Option String
  status : String
  subtotal : Int
  discount : Int
  points_used : Int
  points_earned : Int
  total : Int
deriving DecidableEq

/-- The D1 database state: the tables the loyalty engine reads and writes.
Newsletter subscribers are kept as their (lowercased) e-mail addresses,
the only column the code ever queries. -/
structure DB where
  users : List UserRow
  points_transactions : List PointsTransaction
  orders : List OrderRow
  newsletter_subscribers : List String
deriving DecidableEq

/-- The freshly migrated database: every table empty. -/
def DB.init : DB := ⟨[], [], [], []⟩

/-- SQL `UPDATE users SET points_balance = points_balance + d WHERE id = uid`
(and, negated, the deduction of spent points). -/
def addBalance (uid : String) (d : Int) (us : List UserRow) : List UserRow :=
  us.map fun u => if u.id = uid then { u with points_balance := u.points_balance + d } else u

/-- SQL `UPDATE users SET tier = ? WHERE id = uid`. -/
def setUserTier (uid tname : String) (us : List UserRow) : List UserRow :=
  us.map fun u => if u.id = uid then { u with tier := tname } else u

/-- SQL `SELECT ... FROM users WHERE id = uid` returning the first row. -/
def findUser (uid : String) (us : List UserRow) : Option UserRow :=
  us.find? (fun u => u.id = uid)

/-- JavaScript `String.prototype.toLowerCase`, written over the character
list so that it evaluates inside the kernel. -/
def jsToLower (s : String) : String := ⟨s.data.map Char.toLower⟩

/-- JavaScript `email.includes('@')`, written over the character list. -/
def jsIncludesAt (s : String) : Bool := s.data.contains '@'

/-- The `POST /api/auth/register` handler (src/index.ts lines 169 to 252):
reject empty e-mail or password, passwords under 8 characters, and an
already registered e-mail; then insert the user with the signup bonus as
balance and tier MOON, and log the bonus as an EARN/SIGNUP ledger entry.
`userId` and `eid` stand for the two `generateId()` results.  A primary-key
collision on the user id would abort the INSERT before the ledger write, so
it is modelled as the same no-op as the duplicate e-mail check.  Sending
the verification mail and the session write touch no table modelled here. -/
def registerUser (email password : String) (userId eid : String) (db : DB) : DB :=
  if email = "" ∨ password = "" then db
  else if password.length < 8 then db
  else if db.users.any (fun u => u.email = jsToLower email) then db
  else if db.users.any (fun u => u.id = userId) then db
  else
    { db with
      users := db.users ++ [⟨userId, jsToLower email, POINTS_CONFIG.SIGNUP_BONUS, "MOON"⟩]
      points_transactions := db.points_transactions ++
        [⟨eid, userId, POINTS_CONFIG.SIGNUP_BONUS, "EARN", "SIGNUP", none⟩] }

/-- The `POST /api/newsletter/subscribe` handler (src/index.ts lines 744 to
795): reject an address without an `@`; an existing subscriber is a benign
no-op; otherwise insert the subscriber and, when a session is present,
credit the newsletter bonus and log it as an EARN/NEWSLETTER entry.
`sess` is the session user id, `eid` the generated ledger-entry id. -/
def newsletterSubscribe (email : String) (sess : Option String) (eid : String) (db : DB) : DB :=
  if ¬ jsIncludesAt email then db
  else if db.newsletter_subscribers.contains (jsToLower email) then db
  else
    let db1 := { db with newsletter_subscribers := db.newsletter_subscribers ++ [jsToLower email] }
    match sess with
    | none => db1
    | some uid =>
      { db1 with
        users := addBalance uid POINTS_CONFIG.NEWSLETTER_BONUS db1.users
        points_transactions := db1.points_transactions ++
          [⟨eid, uid, POINTS_CONFIG.NEWSLETTER_BONUS, "EARN", "NEWSLETTER", none⟩] }

/-- The `POST /api/checkout/create-session` handler (src/index.ts lines 449
to 567), restricted to its database effect: compute the subtotal, cap the
requested points by `calculateMaxDiscount` when a session is present, the
user exists and the subtotal meets the redemption minimum, and insert the
order in state `pending`.  The Stripe calls and the later
`stripe_session_id` update touch no modelled column.  A primary-key
collision on the order id aborts the INSERT, modelled as a no-op. -/
def checkoutCreateSession (sess : Option String) (items : List CartItem)
    (pointsToRedeem : Option Int) (orderId : String) (db : DB) : DB :=
  if items = [] then db
  else
    let subtotalCents := subtotalOf items
    let redemption : Int × Int :=
      match sess, pointsToRedeem with
      | some uid, some r =>
        if 0 < r then
          match findUser uid db.users with
          | some u =>
            if POINTS_CONFIG.MIN_ORDER_FOR_REDEMPTION * 100 ≤ subtotalCents then
              let maxPoints := (calculateMaxDiscount subtotalCents u.points_balance).1
              let actualPointsUsed := min r maxPoints
              let discountCents :=
                ⌊(actualPointsUsed : Rat) / (POINTS_CONFIG.POINTS_PER_EURO_DISCOUNT : Rat)⌋ * 100
              (discountCents, actualPointsUsed)
            else (0, 0)
          | none => (0, 0)
        else (0, 0)
      | _, _ => (0, 0)
    let discountCents := redemption.1
    let actualPointsUsed := redemption.2
    if db.orders.any (fun o => o.id = orderId) then db
    else
      { db with
        orders := db.orders ++
          [⟨orderId, sess, "pending", subtotalCents, discountCents, actualPointsUsed,
            0, subtotalCents - discountCents⟩] }

/-- The `POST /api/webhooks/stripe` handler (src/index.ts lines 589 to 676)
for a verified `checkout.session.completed` event whose metadata carries
`orderId`, `userId` and `pointsUsed` (the `discountCents` field is parsed
but never used).  The code marks the order paid, deducts the used points
with a SPEND/ORDER entry, credits `calculatePointsEarned` of the order
total with an EARN/ORDER entry, stores the earned points on the order, and
recomputes the stored tier from
`user.points_balance - pointsUsed + pointsEarned`, where `points_balance`
was read after the deduction already happened.  `eid1` and `eid2` are the
generated ledger-entry ids. -/
def stripeWebhook (orderId userId : String) (pointsUsed : Int)
    (eid1 eid2 : String) (db : DB) : DB :=
  if orderId = "" then db
  else
    let db1 := { db with
      orders := db.orders.map fun o : OrderRow =>
        if o.id = orderId then { o with status := "paid" } else o }
    match db1.orders.find? (fun o => o.id = orderId) with
    | none => db1
    | some order =>
      if userId = "" then db1
      else
        let db2 :=
          if 0 < pointsUsed then
            { db1 with
              users := addBalance userId (-pointsUsed) db1.users
              points_transactions := db1.points_transactions ++
                [⟨eid1, userId, -pointsUsed, "SPEND", "ORDER", some orderId⟩] }
          else db1
        match findUser userId db2.users with
        | none => db2
        | some user =>
          let tier := getTier user.points_balance
          let pointsEarned := calculatePointsEarned order.total tier
          let db3 := { db2 with
            users := addBalance userId pointsEarned db2.users
            points_transactions := db2.points_transactions ++
              [⟨eid2, userId, pointsEarned, "EARN", "ORDER", some orderId⟩]
            orders := db2.orders.map fun o : OrderRow =>
              if o.id = orderId then { o with points_earned := pointsEarned } else o }
          let newPoints := user.points_balance - pointsUsed + pointsEarned
          let newTier := getTier newPoints
          if newTier.name ≠ user.tier then
            { db3 with users := setUserTier userId newTier.name db3.users }
          else db3

/-- The `DELETE /api/auth/delete` handler (src/index.ts lines 936 to 961):
delete the ledger entries, the orders and the user row of the session user.
The KV session delete touches no table. -/
def deleteAccount (uid : String) (db : DB) : DB :=
  { db with
    points_transactions := db.points_transactions.filter (fun t => ¬ t.user_id = uid)
    orders := db.orders.filter (fun o => ¬ o.user_id = some uid)
    users := db.users.filter (fun u => ¬ u.id = uid) }

/-- One request against the API, with the ids produced by `generateId()`
carried as data (`crypto.randomUUID` is modelled as an external choice). -/
inductive Op where
  | register (email password : String) (userId eid : String)
  | newsletter (email : String) (sess : Option String) (eid : String)
  | checkout (sess : Option String) (items : List CartItem)
      (pointsToRedeem : Option Int) (orderId : String)
  | webhook (orderId userId : String) (pointsUsed : Int) (eid1 eid2 : String)
  | deleteAccount (uid : String)

/-- The state transition of one request. -/
def applyOp (db : DB) : Op → DB
  | .register email password userId eid => registerUser email password userId eid db
  | .newsletter email sess eid => newsletterSubscribe email sess eid db
  | .checkout sess items pointsToRedeem orderId =>
      checkoutCreateSession sess items pointsToRedeem orderId db
  | .webhook orderId userId pointsUsed eid1 eid2 =>
      stripeWebhook orderId userId pointsUsed eid1 eid2 db
  | .deleteAccount uid => deleteAccount uid db

/-- A whole sequence of requests. -/
def run (db : DB) (ops : List Op) : DB := ops.foldl applyOp db

/-- The sum of the ledger amounts recorded for one user, the
`balanceFor(userId)` of the spec. -/
def ledgerSum (uid : String) (txs : List PointsTransaction) : Int :=
  ((txs.filter (fun t => t.user_id = uid)).map (fun t => t.amount)).sum

/-- Consistency of a user list with a ledger: every row caches exactly the
sum of the ledger entries recorded under its id. -/
def BalancesOk (us : List UserRow) (txs : List PointsTransaction) : Prop :=
  ∀ u ∈ us, u.points_balance = ledgerSum u.id txs

/-- The ledger-sum invariant of the spec: every existing user row caches
exactly the sum of the ledger entries of that user. -/
def BalanceInv (db : DB) : Prop :=
  BalancesOk db.users db.points_transactions

/-- Freshness of the ids a request draws from `generateId()`: a newly
registered user id never collides with an id the database has seen, which
models `crypto.randomUUID`.  All other requests need no such assumption. -/
def OpFresh (db : DB) : Op → Prop
  | .register _ _ userId _ => ∀ t ∈ db.points_transactions, t.user_id ≠ userId
  | _ => True

/-- Every request of the sequence draws fresh ids in the state it runs in. -/
def RunFresh : DB → List Op → Prop
  | _, [] => True
  | db, op :: ops => OpFresh db op ∧ RunFresh (applyOp db op) ops

/-- Floor of an integer over a positive integer, taken in the rationals,
is Euclidean integer division. -/
theorem floorQ_div_pos (m q : Int) (hq : 0 < q) : ⌊(m : Rat) / (q : Rat)⌋ = m / q := by
  obtain ⟨n, rfl⟩ : ∃ n : Nat, q = (n : Int) := ⟨q.toNat, (Int.toNat_of_nonneg hq.le).symm⟩
  exact_mod_cast Rat.floor_intCast_div_natCast m n

/-- Evaluation of the `maxByPercent` floor of `calculateMaxDiscount`. -/
theorem floor_maxByPercent (c : Int) :
    ⌊(c : Rat) * ((POINTS_CONFIG.MAX_DISCOUNT_PERCENT : Rat) / 100)⌋ = c * 20 / 100 := by
  rw [show ((POINTS_CONFIG.MAX_DISCOUNT_PERCENT : Int) : Rat) = ((20 : Int) : Rat) by
    norm_num [POINTS_CONFIG]]
  rw [show (c : Rat) * (((20 : Int) : Rat) / 100) = ((c * 20 : Int) : Rat) / ((100 : Int) : Rat) by
    push_cast; ring]
  exact floorQ_div_pos (c * 20) 100 (by norm_num)

/-- Evaluation of a floor of division by `POINTS_PER_EURO_DISCOUNT`. -/
theorem floor_div_PPE (m : Int) :
    ⌊(m : Rat) / (POINTS_CONFIG.POINTS_PER_EURO_DISCOUNT : Rat)⌋ = m / 20 := by
  rw [show ((POINTS_CONFIG.POINTS_PER_EURO_DISCOUNT : Int) : Rat) = ((20 : Int) : Rat) by
    norm_num [POINTS_CONFIG]]
  exact floorQ_div_pos m 20 (by norm_num)

/-- Evaluation of the `maxPoints` floor of `calculateMaxDiscount`. -/
theorem floor_maxPoints (d : Int) :
    ⌊(d : Rat) / 100 * (POINTS_CONFIG.POINTS_PER_EURO_DISCOUNT : Rat)⌋ = d * 20 / 100 := by
  rw [show ((POINTS_CONFIG.POINTS_PER_EURO_DISCOUNT : Int) : Rat) = ((20 : Int) : Rat) by
    norm_num [POINTS_CONFIG]]
  rw [show (d : Rat) / 100 * ((20 : Int) : Rat) = ((d * 20 : Int) : Rat) / ((100 : Int) : Rat) by
    push_cast; ring]
  exact floorQ_div_pos (d * 20) 100 (by norm_num)

/-- Evaluation of the `basePoints` floor of `calculatePointsEarned`. -/
theorem floor_basePoints (c : Int) :
    ⌊(c : Rat) / 100 * (POINTS_CONFIG.EARN_PER_EURO : Rat)⌋ = c / 100 := by
  rw [show ((POINTS_CONFIG.EARN_PER_EURO : Int) : Rat) = ((1 : Int) : Rat) by
    norm_num [POINTS_CONFIG]]
  rw [show (c : Rat) / 100 * ((1 : Int) : Rat) = (c : Rat) / ((100 : Int) : Rat) by
    push_cast; ring]
  exact floorQ_div_pos c 100 (by norm_num)

/-- Evaluation of `Math.floor(b / 20)` with a literal divisor. -/
theorem floor_div_20 (b : Int) : ⌊(b : Rat) / 20⌋ = b / 20 := by
  rw [show (20 : Rat) = ((20 : Int) : Rat) by norm_num]
  exact floorQ_div_pos b 20 (by norm_num)

/-- Evaluation of `Math.floor(c * 20 / 100)` with literal constants. -/
theorem floor_mul_20_div_100 (c : Int) : ⌊(c : Rat) * 20 / 100⌋ = c * 20 / 100 := by
  rw [show (c : Rat) * 20 / 100 = ((c * 20 : Int) : Rat) / ((100 : Int) : Rat) by
    push_cast; ring]
  exact floorQ_div_pos (c * 20) 100 (by norm_num)

/-- Evaluation of `Math.floor(d / 100 * 20)` with literal constants. -/
theorem floor_div_100_mul_20 (d : Int) : ⌊(d : Rat) / 100 * 20⌋ = d * 20 / 100 := by
  rw [show (d : Rat) / 100 * 20 = ((d * 20 : Int) : Rat) / ((100 : Int) : Rat) by
    push_cast; ring]
  exact floorQ_div_pos (d * 20) 100 (by norm_num)

/-- Evaluation of `Math.floor(x * 1.1)`, the ECLIPSE multiplier. -/
theorem floor_mul_11_10 (x : Int) : ⌊(x : Rat) * (11 / 10)⌋ = x * 11 / 10 := by
  rw [show (x : Rat) * (11 / 10) = ((x * 11 : Int) : Rat) / ((10 : Int) : Rat) by
    push_cast; ring]
  exact floorQ_div_pos (x * 11) 10 (by norm_num)

/-- Evaluation of `Math.floor(x * 1.25)`, the NOVA multiplier. -/
theorem floor_mul_5_4 (x : Int) : ⌊(x : Rat) * (5 / 4)⌋ = x * 5 / 4 := by
  rw [show (x : Rat) * (5 / 4) = ((x * 5 : Int) : Rat) / ((4 : Int) : Rat) by
    push_cast; ring]
  exact floorQ_div_pos (x * 5) 4 (by norm_num)

/-- `calculateMaxDiscount` as pure integer arithmetic. -/
theorem calculateMaxDiscount_eq (c b : Int) :
    calculateMaxDiscount c b =
      (min (c * 20 / 100) (b / 20 * 100) * 20 / 100,
       min (c * 20 / 100) (b / 20 * 100)) := by
  simp only [calculateMaxDiscount]
  rw [floor_maxByPercent, floor_div_PPE, floor_maxPoints]

/-- `calculatePointsEarned` at the MOON tier as integer arithmetic. -/
theorem calculatePointsEarned_moon (c : Int) :
    calculatePointsEarned c tierMOON = c / 100 := by
  simp only [calculatePointsEarned, tierMOON]
  rw [floor_basePoints]
  rw [mul_one, Int.floor_intCast]

/-- `calculatePointsEarned` at the ECLIPSE tier as integer arithmetic. -/
theorem calculatePointsEarned_eclipse (c : Int) :
    calculatePointsEarned c tierECLIPSE = c / 100 * 11 / 10 := by
  simp only [calculatePointsEarned, tierECLIPSE]
  rw [floor_basePoints, floor_mul_11_10]

/-- `calculatePointsEarned` at the NOVA tier as integer arithmetic. -/
theorem calculatePointsEarned_nova (c : Int) :
    calculatePointsEarned c tierNOVA = c / 100 * 5 / 4 := by
  simp only [calculatePointsEarned, tierNOVA]
  rw [floor_basePoints, floor_mul_5_4]

/-- `getTier` for a balance in the MOON range. -/
theorem getTier_eq_moon (p : Int) (h0 : 0 ≤ p) (h1 : p ≤ 499) : getTier p = tierMOON := by
  simp only [getTier, POINTS_CONFIG]
  rw [List.find?_cons_of_pos]
  · rfl
  · simp only [tierMatches, tierMOON, Bool.and_eq_true, decide_eq_true_eq]
    omega

/-- `getTier` for a balance in the ECLIPSE range. -/
theorem getTier_eq_eclipse (p : Int) (h0 : 500 ≤ p) (h1 : p ≤ 1499) :
    getTier p = tierECLIPSE := by
  simp only [getTier, POINTS_CONFIG]
  rw [List.find?_cons_of_neg, List.find?_cons_of_pos]
  · rfl
  · simp only [tierMatches, tierECLIPSE, Bool.and_eq_true, decide_eq_true_eq]
    omega
  · simp only [tierMatches, tierMOON, Bool.and_eq_true, decide_eq_true_eq, not_and]
    omega

/-- `getTier` for a balance in the NOVA range. -/
theorem getTier_eq_nova (p : Int) (h0 : 1500 ≤ p) : getTier p = tierNOVA := by
  simp only [getTier, POINTS_CONFIG]
  rw [List.find?_cons_of_neg, List.find?_cons_of_neg, List.find?_cons_of_pos]
  · rfl
  · simp only [tierMatches, tierNOVA, Bool.and_true, decide_eq_true_eq]
    omega
  · simp only [tierMatches, tierECLIPSE, Bool.and_eq_true, decide_eq_true_eq, not_and]
    omega
  · simp only [tierMatches, tierMOON, Bool.and_eq_true, decide_eq_true_eq, not_and]
    omega

/-- `getTier` falls back to the lowest tier on a negative balance. -/
theorem getTier_falls_back (p : Int) (h0 : p < 0) : getTier p = tierMOON := by
  simp only [getTier, POINTS_CONFIG]
  rw [List.find?_cons_of_neg, List.find?_cons_of_neg, List.find?_cons_of_neg]
  · rfl
  · simp only [tierMatches, tierNOVA, Bool.and_true, decide_eq_true_eq]
    omega
  · simp only [tierMatches, tierECLIPSE, Bool.and_eq_true, decide_eq_true_eq, not_and]
    omega
  · simp only [tierMatches, tierMOON, Bool.and_eq_true, decide_eq_true_eq, not_and]
    omega

/-- The discount-preview endpoint as pure integer arithmetic. -/
theorem calculateDiscountEndpoint_eq (c b : Int) (req : Option Int) :
    calculateDiscountEndpoint c b req =
      if c < 3000 then .error "Mindestbestellwert"
      else
        .ok ⟨b, min (c * 20 / 100) (b / 20 * 100) * 20 / 100,
             min (c * 20 / 100) (b / 20 * 100),
             min (jsOr req (min (c * 20 / 100) (b / 20 * 100) * 20 / 100))
               (min (c * 20 / 100) (b / 20 * 100) * 20 / 100),
             min (jsOr req (min (c * 20 / 100) (b / 20 * 100) * 20 / 100))
                 (min (c * 20 / 100) (b / 20 * 100) * 20 / 100) / 20 * 100,
             c - min (jsOr req (min (c * 20 / 100) (b / 20 * 100) * 20 / 100))
                   (min (c * 20 / 100) (b / 20 * 100) * 20 / 100) / 20 * 100⟩ := by
  simp only [calculateDiscountEndpoint]
  rw [calculateMaxDiscount_eq]
  rw [show POINTS_CONFIG.MIN_ORDER_FOR_REDEMPTION * 100 = (3000 : Int) by
    norm_num [POINTS_CONFIG]]
  rw [floor_div_PPE]

/-- `computeRedemptionSpec` as pure integer arithmetic. -/
theorem computeRedemptionSpec_eq (c b : Int) (req : Option Int) :
    computeRedemptionSpec c b req =
      ⟨c * 20 / 100, b / 20 * 100,
       min (c * 20 / 100) (b / 20 * 100),
       min (c * 20 / 100) (b / 20 * 100) * 20 / 100,
       min (req.getD (min (c * 20 / 100) (b / 20 * 100) * 20 / 100))
         (min (c * 20 / 100) (b / 20 * 100) * 20 / 100),
       min (req.getD (min (c * 20 / 100) (b / 20 * 100) * 20 / 100))
           (min (c * 20 / 100) (b / 20 * 100) * 20 / 100) / 20 * 100⟩ := by
  simp only [computeRedemptionSpec]
  rw [floor_mul_20_div_100, floor_div_20, floor_div_100_mul_20, floor_div_20]

/-- Membership in the configured tier list, spelled out. -/
theorem mem_TIERS_iff (t : Tier) :
    t ∈ POINTS_CONFIG.TIERS ↔ t = tierMOON ∨ t = tierECLIPSE ∨ t = tierNOVA := by
  simp [POINTS_CONFIG]

/-- The MOON range test, spelled out. -/
theorem tierMatches_moon_iff (p : Int) :
    tierMatches p tierMOON = true ↔ 0 ≤ p ∧ p ≤ 499 := by
  simp [tierMatches, tierMOON]

/-- The ECLIPSE range test, spelled out. -/
theorem tierMatches_eclipse_iff (p : Int) :
    tierMatches p tierECLIPSE = true ↔ 500 ≤ p ∧ p ≤ 1499 := by
  simp [tierMatches, tierECLIPSE]

/-- The NOVA range test, spelled out. -/
theorem tierMatches_nova_iff (p : Int) :
    tierMatches p tierNOVA = true ↔ 1500 ≤ p := by
  simp [tierMatches, tierNOVA]

/-- The three configured tiers are pairwise distinct. -/
theorem tiers_distinct :
    tierMOON ≠ tierECLIPSE ∧ tierMOON ≠ tierNOVA ∧ tierECLIPSE ≠ tierNOVA := by
  refine ⟨fun h => ?_, fun h => ?_, fun h => ?_⟩ <;>
    simp [tierMOON, tierECLIPSE, tierNOVA, Tier.mk.injEq] at h

/-- C7: with the configured tier table (MOON with range 0 to 499 and
multiplier 1.0, ECLIPSE with range 500 to 1499 and multiplier 1.1, NOVA
from 1500 up with multiplier 1.25), every non-negative balance is matched
by exactly one tier; `getTier` maps the lower endpoint of every tier to
that tier, the finite upper endpoints to their tiers, every balance above
the unbounded tier's minimum to that tier; and on a balance matching no
tier, negative balances included, `getTier` falls back to MOON. -/
theorem tier_partition_and_lookup :
    (∀ b : Int, 0 ≤ b → ∃! t, t ∈ POINTS_CONFIG.TIERS ∧ tierMatches b t = true)
    ∧ (∀ t ∈ POINTS_CONFIG.TIERS, getTier t.min = t)
    ∧ (∀ t ∈ POINTS_CONFIG.TIERS, ∀ m, t.max = some m → getTier m = t)
    ∧ (∀ t ∈ POINTS_CONFIG.TIERS, t.max = none → ∀ b, t.min ≤ b → getTier b = t)
    ∧ (∀ b : Int, (∀ t ∈ POINTS_CONFIG.TIERS, tierMatches b t = false) → getTier b = tierMOON)
    ∧ (∀ b : Int, b < 0 → getTier b = tierMOON) := by
  refine ⟨?_, ?_, ?_, ?_, ?_, ?_⟩
  · intro b hb
    by_cases h1 : b ≤ 499
    · refine ⟨tierMOON, ⟨by simp [POINTS_CONFIG], (tierMatches_moon_iff b).mpr ⟨hb, h1⟩⟩, ?_⟩
      rintro t ⟨ht, hm⟩
      rcases (mem_TIERS_iff t).mp ht with rfl | rfl | rfl
      · rfl
      · rw [tierMatches_eclipse_iff] at hm; omega
      · rw [tierMatches_nova_iff] at hm; omega
    · by_cases h2 : b ≤ 1499
      · refine ⟨tierECLIPSE,
          ⟨by simp [POINTS_CONFIG], (tierMatches_eclipse_iff b).mpr ⟨by omega, h2⟩⟩, ?_⟩
        rintro t ⟨ht, hm⟩
        rcases (mem_TIERS_iff t).mp ht with rfl | rfl | rfl
        · rw [tierMatches_moon_iff] at hm; omega
        · rfl
        · rw [tierMatches_nova_iff] at hm; omega
      · refine ⟨tierNOVA,
          ⟨by simp [POINTS_CONFIG], (tierMatches_nova_iff b).mpr (by omega)⟩, ?_⟩
        rintro t ⟨ht, hm⟩
        rcases (mem_TIERS_iff t).mp ht with rfl | rfl | rfl
        · rw [tierMatches_moon_iff] at hm; omega
        · rw [tierMatches_eclipse_iff] at hm; omega
        · rfl
  · intro t ht
    rcases (mem_TIERS_iff t).mp ht with rfl | rfl | rfl
    · exact getTier_eq_moon _ (by norm_num [tierMOON]) (by norm_num [tierMOON])
    · exact getTier_eq_eclipse _ (by norm_num [tierECLIPSE]) (by norm_num [tierECLIPSE])
    · exact getTier_eq_nova _ (by norm_num [tierNOVA])
  · intro t ht m hm
    rcases (mem_TIERS_iff t).mp ht with rfl | rfl | rfl
    · rw [show m = (499 : Int) by simpa [tierMOON] using hm.symm]
      exact getTier_eq_moon _ (by norm_num) (by norm_num)
    · rw [show m = (1499 : Int) by simpa [tierECLIPSE] using hm.symm]
      exact getTier_eq_eclipse _ (by norm_num) (by norm_num)
    · simp [tierNOVA] at hm
  · intro t ht hm b hb
    rcases (mem_TIERS_iff t).mp ht with rfl | rfl | rfl
    · simp [tierMOON] at hm
    · simp [tierECLIPSE] at hm
    · exact getTier_eq_nova _ (by simpa [tierNOVA] using hb)
  · intro b hall
    have hnone : POINTS_CONFIG.TIERS.find? (tierMatches b) = none :=
      List.find?_eq_none.mpr fun t ht => by simpa using hall t ht
    simp [getTier, hnone]
  · exact fun b hb => getTier_falls_back b hb

/-- C6: the points earned for an order total are the floor of the base
points times the tier multiplier, with the base points themselves already
floored; this never exceeds the value obtained by flooring only after the
multiplication; and an order of 10000 minor units at multiplier 1.1 earns
110 points. -/
theorem pointsEarned_floors_base_before_multiplier :
    (∀ (orderTotal : Int), ∀ t ∈ POINTS_CONFIG.TIERS,
       calculatePointsEarned orderTotal t =
         ⌊(⌊(orderTotal : Rat) / 100 * (POINTS_CONFIG.EARN_PER_EURO : Rat)⌋ : Rat) *
           t.bonusMultiplier⌋
       ∧ calculatePointsEarned orderTotal t ≤
           ⌊(orderTotal : Rat) / 100 * (POINTS_CONFIG.EARN_PER_EURO : Rat) * t.bonusMultiplier⌋)
    ∧ calculatePointsEarned 10000 tierECLIPSE = 110 := by
  constructor
  · intro orderTotal t ht
    have hmul : (0 : Rat) ≤ t.bonusMultiplier := by
      rcases (mem_TIERS_iff t).mp ht with rfl | rfl | rfl <;>
        norm_num [tierMOON, tierECLIPSE, tierNOVA]
    refine ⟨rfl, ?_⟩
    show (⌊(⌊(orderTotal : Rat) / 100 * (POINTS_CONFIG.EARN_PER_EURO : Rat)⌋ : Rat) *
      t.bonusMultiplier⌋ : Int) ≤ _
    exact Int.floor_mono (mul_le_mul_of_nonneg_right (Int.floor_le _) hmul)
  · rw [calculatePointsEarned_eclipse]
    decide

/-- C4: whatever points the caller requests, the preview endpoint's
discount never exceeds the 20 percent cap nor the cart subtotal, so the
new total is never negative. -/
theorem discount_bounded_by_cap_and_subtotal (cart bal : Int) (req : Option Int)
    (r : DiscountResponse) (_hc : 0 ≤ cart) (_hb : 0 ≤ bal)
    (hr : calculateDiscountEndpoint cart bal req = .ok r) :
    r.discountCents ≤ ⌊(cart : Rat) * ((POINTS_CONFIG.MAX_DISCOUNT_PERCENT : Rat) / 100)⌋
    ∧ r.discountCents ≤ cart ∧ 0 ≤ r.newTotal := by
  rw [calculateDiscountEndpoint_eq] at hr
  rw [floor_maxByPercent]
  split at hr
  · cases hr
  · cases hr
    refine ⟨?_, ?_, ?_⟩ <;>
      · simp only [DiscountResponse.newTotal, DiscountResponse.discountCents]
        generalize jsOr req (min (cart * 20 / 100) (bal / 20 * 100) * 20 / 100) = k
        omega

/-- Witness for C4 at the spec scenario: cart 10000, balance 1000, no
requested points. -/
theorem discount_bounded_witness :
    (⟨1000, 400, 2000, 400, 2000, 8000⟩ : DiscountResponse).discountCents ≤
      ⌊((10000 : Int) : Rat) * ((POINTS_CONFIG.MAX_DISCOUNT_PERCENT : Rat) / 100)⌋
    ∧ (⟨1000, 400, 2000, 400, 2000, 8000⟩ : DiscountResponse).discountCents ≤ (10000 : Int)
    ∧ (0 : Int) ≤ (⟨1000, 400, 2000, 400, 2000, 8000⟩ : DiscountResponse).newTotal :=
  discount_bounded_by_cap_and_subtotal 10000 1000 none _ (by norm_num) (by norm_num)
    (by rw [calculateDiscountEndpoint_eq]; decide)

/-- C5: for carts at or above the redemption minimum the endpoint computes
exactly the staged formulas of the spec (maxByPercent, maxByBalance, their
minimum, the back-derived maxPointsUsable, the capped pointsToUse for an
omitted or non-zero request, and the resulting discount), and the spec
scenario with cart 10000 and balance 1000 yields 2000, 5000, 2000, 400 and
a discount of 2000. -/
theorem endpoint_computes_spec_redemption :
    (∀ (cart bal : Int) (req : Option Int), 3000 ≤ cart →
      (req = none ∨ ∃ v, req = some v ∧ v ≠ 0) →
      ∃ r, calculateDiscountEndpoint cart bal req = .ok r ∧
        ⌊(cart : Rat) * ((POINTS_CONFIG.MAX_DISCOUNT_PERCENT : Rat) / 100)⌋ =
          (computeRedemptionSpec cart bal req).maxByPercent ∧
        ⌊(bal : Rat) / (POINTS_CONFIG.POINTS_PER_EURO_DISCOUNT : Rat)⌋ * 100 =
          (computeRedemptionSpec cart bal req).maxByBalance ∧
        r.maxDiscountCents = (computeRedemptionSpec cart bal req).maxDiscountAmount ∧
        r.maxPointsUsable = (computeRedemptionSpec cart bal req).maxPointsUsable ∧
        r.pointsToUse = (computeRedemptionSpec cart bal req).pointsToUse ∧
        r.discountCents = (computeRedemptionSpec cart bal req).discountAmount)
    ∧ computeRedemptionSpec 10000 1000 none = ⟨2000, 5000, 2000, 400, 400, 2000⟩
    ∧ calculateDiscountEndpoint 10000 1000 none = .ok ⟨1000, 400, 2000, 400, 2000, 8000⟩ := by
  refine ⟨?_, ?_, ?_⟩
  · intro cart bal req hcart hreq
    have hjs : jsOr req (min (cart * 20 / 100) (bal / 20 * 100) * 20 / 100) =
        req.getD (min (cart * 20 / 100) (bal / 20 * 100) * 20 / 100) := by
      rcases hreq with rfl | ⟨v, rfl, hv⟩
      · rfl
      · simp [jsOr, hv]
    rw [calculateDiscountEndpoint_eq, computeRedemptionSpec_eq,
      floor_maxByPercent, floor_div_PPE]
    rw [if_neg (by omega)]
    exact ⟨_, rfl, rfl, rfl, rfl, rfl, by rw [hjs], by rw [hjs]⟩
  · rw [computeRedemptionSpec_eq]; decide
  · rw [calculateDiscountEndpoint_eq]; decide

/-- C9: requesting zero points from the discount preview is treated like
omitting the field entirely, and the previewed pointsToUse is then the
maximum usable points, never zero. -/
theorem zero_request_defaults_to_max_redemption :
    (∀ cart bal : Int,
      calculateDiscountEndpoint cart bal (some 0) = calculateDiscountEndpoint cart bal none)
    ∧ (∀ (cart bal : Int) (r : DiscountResponse),
        calculateDiscountEndpoint cart bal (some 0) = .ok r →
        r.pointsToUse = (calculateMaxDiscount cart bal).1
        ∧ r.pointsToUse = r.maxPointsUsable) := by
  constructor
  · intro cart bal
    rw [calculateDiscountEndpoint_eq, calculateDiscountEndpoint_eq]
    rfl
  · intro cart bal r hr
    rw [calculateDiscountEndpoint_eq] at hr
    rw [calculateMaxDiscount_eq]
    split at hr
    · cases hr
    · cases hr
      constructor <;>
        simp [jsOr, DiscountResponse.pointsToUse, DiscountResponse.maxPointsUsable]

/-- Splitting a ledger sum over a head entry. -/
theorem ledgerSum_cons (w : String) (t : PointsTransaction) (ts : List PointsTransaction) :
    ledgerSum w (t :: ts) = (if t.user_id = w then t.amount else 0) + ledgerSum w ts := by
  by_cases h : t.user_id = w <;> simp [ledgerSum, List.filter_cons, h]

/-- Splitting a ledger sum over an appended tail. -/
theorem ledgerSum_append (w : String) (a b : List PointsTransaction) :
    ledgerSum w (a ++ b) = ledgerSum w a + ledgerSum w b := by
  simp [ledgerSum, List.filter_append]

/-- A ledger sum over a single entry. -/
theorem ledgerSum_singleton (w : String) (t : PointsTransaction) :
    ledgerSum w [t] = if t.user_id = w then t.amount else 0 := by
  rw [show [t] = t :: ([] : List PointsTransaction) from rfl, ledgerSum_cons]
  simp [ledgerSum]

/-- A user id that appears in no entry sums to zero. -/
theorem ledgerSum_eq_zero (w : String) (txs : List PointsTransaction)
    (h : ∀ t ∈ txs, t.user_id ≠ w) : ledgerSum w txs = 0 := by
  induction txs with
  | nil => rfl
  | cons t ts ih =>
    rw [ledgerSum_cons, if_neg (h t (by simp)), ih (fun x hx => h x (by simp [hx]))]
    rfl

/-- Deleting the entries of one user leaves every other ledger sum alone. -/
theorem ledgerSum_filter_ne (uid w : String) (h : w ≠ uid) (txs : List PointsTransaction) :
    ledgerSum w (txs.filter fun t => ¬ t.user_id = uid) = ledgerSum w txs := by
  induction txs with
  | nil => rfl
  | cons t ts ih =>
    by_cases ht : t.user_id = uid
    · rw [List.filter_cons, if_neg (by simp [ht]), ih, ledgerSum_cons,
        if_neg (by rw [ht]; exact fun hh => h hh.symm)]
      omega
    · rw [List.filter_cons, if_pos (by simp [ht]), ledgerSum_cons, ledgerSum_cons, ih]

/-- Crediting a user and appending the matching ledger entry in one step
keeps every cached balance consistent: the pattern common to the signup
bonus, the newsletter bonus, the settlement deduction and the settlement
credit. -/
theorem balancesOk_addBalance_append (us : List UserRow) (txs : List PointsTransaction)
    (uid : String) (d : Int) (eid ty src : String) (ref : Option String)
    (h : BalancesOk us txs) :
    BalancesOk (addBalance uid d us) (txs ++ [⟨eid, uid, d, ty, src, ref⟩]) := by
  intro v hv
  rcases List.mem_map.mp hv with ⟨u, hu, rfl⟩
  have hb := h u hu
  rw [ledgerSum_append, ledgerSum_singleton]
  by_cases hid : u.id = uid
  · simp only [if_pos hid]
    show u.points_balance + d = _
    rw [if_pos hid.symm, hb]
  · simp only [if_neg hid]
    show u.points_balance = _
    rw [if_neg (fun hh => hid hh.symm), hb]
    omega

/-- Changing a stored tier touches no balance and no ledger entry. -/
theorem balancesOk_setUserTier (us : List UserRow) (txs : List PointsTransaction)
    (uid tname : String) (h : BalancesOk us txs) :
    BalancesOk (setUserTier uid tname us) txs := by
  intro v hv
  rcases List.mem_map.mp hv with ⟨u, hu, rfl⟩
  have hb := h u hu
  by_cases hid : u.id = uid
  · simp only [if_pos hid]
    exact hb
  · simp only [if_neg hid]
    exact hb

/-- Deleting one user's rows and entries together preserves consistency of
everyone left. -/
theorem balancesOk_delete (us : List UserRow) (txs : List PointsTransaction)
    (uid : String) (h : BalancesOk us txs) :
    BalancesOk (us.filter fun u => ¬ u.id = uid)
      (txs.filter fun t => ¬ t.user_id = uid) := by
  intro v hv
  have hv' := List.mem_filter.mp hv
  have hvid : v.id ≠ uid := by simpa using hv'.2
  rw [ledgerSum_filter_ne uid v.id hvid]
  exact h v hv'.1

/-- Registration preserves the ledger-sum invariant: the signup bonus is
written to the balance and to the ledger together.  The fresh user id must
not appear in old ledger entries (UUIDs never repeat). -/
theorem balanceInv_registerUser (email password userId eid : String) (db : DB)
    (h : BalanceInv db) (hf : ∀ t ∈ db.points_transactions, t.user_id ≠ userId) :
    BalanceInv (registerUser email password userId eid db) := by
  unfold registerUser
  repeat' split
  any_goals exact h
  rename_i h1 h2 h3 h4
  intro v hv
  rcases List.mem_append.mp hv with hmem | hmem
  · have hne : v.id ≠ userId := by
      intro he
      exact h4 (List.any_eq_true.mpr ⟨v, hmem, by simp [he]⟩)
    rw [h v hmem, ledgerSum_append, ledgerSum_singleton,
      if_neg (fun hh => hne hh.symm)]
    omega
  · have hveq : v = ⟨userId, jsToLower email, POINTS_CONFIG.SIGNUP_BONUS, "MOON"⟩ := by
      simpa using hmem
    subst hveq
    rw [ledgerSum_append, ledgerSum_singleton, if_pos rfl,
      ledgerSum_eq_zero userId db.points_transactions hf]
    show POINTS_CONFIG.SIGNUP_BONUS = 0 + POINTS_CONFIG.SIGNUP_BONUS
    omega

/-- Newsletter subscription preserves the ledger-sum invariant: the bonus
update and the ledger entry are written together, and the double-subscribe
path writes nothing. -/
theorem balanceInv_newsletterSubscribe (email : String) (sess : Option String)
    (eid : String) (db : DB) (h : BalanceInv db) :
    BalanceInv (newsletterSubscribe email sess eid db) := by
  unfold newsletterSubscribe
  repeat' split
  any_goals exact h
  exact balancesOk_addBalance_append _ _ _ _ _ _ _ _ h

/-- Checkout creation preserves the ledger-sum invariant: it only inserts a
pending order. -/
theorem balanceInv_checkoutCreateSession (sess : Option String) (items : List CartItem)
    (pointsToRedeem : Option Int) (orderId : String) (db : DB) (h : BalanceInv db) :
    BalanceInv (checkoutCreateSession sess items pointsToRedeem orderId db) := by
  unfold checkoutCreateSession
  repeat' split
  all_goals exact h

/-- Settlement preserves the ledger-sum invariant: the deduction and the
credit each change the balance and append the matching ledger entry in one
step, and the tier update touches no balance. -/
theorem balanceInv_stripeWebhook (orderId userId : String) (pointsUsed : Int)
    (eid1 eid2 : String) (db : DB) (h : BalanceInv db) :
    BalanceInv (stripeWebhook orderId userId pointsUsed eid1 eid2 db) := by
  simp only [stripeWebhook]
  repeat' split
  all_goals first
    | exact h
    | exact balancesOk_addBalance_append _ _ _ _ _ _ _ _ h
    | exact balancesOk_addBalance_append _ _ _ _ _ _ _ _
        (balancesOk_addBalance_append _ _ _ _ _ _ _ _ h)
    | exact balancesOk_setUserTier _ _ _ _
        (balancesOk_addBalance_append _ _ _ _ _ _ _ _ h)
    | exact balancesOk_setUserTier _ _ _ _
        (balancesOk_addBalance_append _ _ _ _ _ _ _ _
          (balancesOk_addBalance_append _ _ _ _ _ _ _ _ h))

/-- Account deletion preserves the ledger-sum invariant for every remaining
user: the deleted user's rows and entries leave together. -/
theorem balanceInv_deleteAccount (uid : String) (db : DB) (h : BalanceInv db) :
    BalanceInv (deleteAccount uid db) :=
  balancesOk_delete _ _ _ h

/-- One request preserves the ledger-sum invariant. -/
theorem balanceInv_applyOp (db : DB) (op : Op) (h : BalanceInv db)
    (hf : OpFresh db op) : BalanceInv (applyOp db op) := by
  cases op with
  | register email password userId eid =>
      exact balanceInv_registerUser email password userId eid db h hf
  | newsletter email sess eid => exact balanceInv_newsletterSubscribe email sess eid db h
  | checkout sess items pointsToRedeem orderId =>
      exact balanceInv_checkoutCreateSession sess items pointsToRedeem orderId db h
  | webhook orderId userId pointsUsed eid1 eid2 =>
      exact balanceInv_stripeWebhook orderId userId pointsUsed eid1 eid2 db h
  | deleteAccount uid => exact balanceInv_deleteAccount uid db h

/-- A request sequence preserves the ledger-sum invariant. -/
theorem balanceInv_run (ops : List Op) : ∀ db : DB, BalanceInv db →
    RunFresh db ops → BalanceInv (run db ops) := by
  induction ops with
  | nil => exact fun db h _ => h
  | cons op ops ih =>
      exact fun db h hf => ih (applyOp db op) (balanceInv_applyOp db op h hf.1) hf.2

/-- C3: after any sequence of requests (registration, newsletter
subscription, checkout creation, webhook settlement, account deletion)
against the fresh database, with `generateId` drawing fresh user ids, every
existing user's cached `points_balance` equals the sum of the amounts of
all that user's ledger entries. -/
theorem ledger_sum_invariant_holds (ops : List Op) (hf : RunFresh DB.init ops) :
    BalanceInv (run DB.init ops) :=
  balanceInv_run ops DB.init (fun u hu => absurd hu (List.not_mem_nil u)) hf

/-- Witness for C3: a settlement request against the fresh database. -/
theorem ledger_sum_invariant_witness :
    RunFresh DB.init [Op.webhook "o1" "u1" 3 "e1" "e2"]
    ∧ BalanceInv (run DB.init [Op.webhook "o1" "u1" 3 "e1" "e2"]) :=
  ⟨⟨trivial, trivial⟩, ledger_sum_invariant_holds _ ⟨trivial, trivial⟩⟩

/-- C2 counterexample: account deletion removes an existing ledger entry,
so the unrestricted append-only claim fails.  One EARN/SIGNUP entry of
user u1 is present before `DELETE /api/auth/delete` and gone afterwards. -/
theorem ledger_entry_removed_by_delete :
    (⟨"e1", "u1", 50, "EARN", "SIGNUP", none⟩ : PointsTransaction) ∈
      (⟨[], [⟨"e1", "u1", 50, "EARN", "SIGNUP", none⟩], [], []⟩ : DB).points_transactions
    ∧ (⟨"e1", "u1", 50, "EARN", "SIGNUP", none⟩ : PointsTransaction) ∉
      (applyOp ⟨[], [⟨"e1", "u1", 50, "EARN", "SIGNUP", none⟩], [], []⟩
        (Op.deleteAccount "u1")).points_transactions := by
  constructor
  · simp
  · simp [applyOp, deleteAccount]

/-- C2 amended: every request other than account deletion leaves every
existing ledger entry present and unchanged (entries are only appended);
account deletion removes exactly the ledger entries of the deleted user. -/
theorem ledger_append_only_except_delete :
    (∀ (db : DB) (op : Op), (∀ uid, op ≠ Op.deleteAccount uid) →
      ∀ t ∈ db.points_transactions, t ∈ (applyOp db op).points_transactions)
    ∧ (∀ (db : DB) (uid : String),
        (applyOp db (Op.deleteAccount uid)).points_transactions =
          db.points_transactions.filter fun t => ¬ t.user_id = uid) := by
  constructor
  · intro db op hop t ht
    cases op with
    | register email password userId eid =>
      simp only [applyOp, registerUser]
      repeat' split
      any_goals exact ht
      exact List.mem_append_left _ ht
    | newsletter email sess eid =>
      simp only [applyOp, newsletterSubscribe]
      repeat' split
      any_goals exact ht
      exact List.mem_append_left _ ht
    | checkout sess items pointsToRedeem orderId =>
      simp only [applyOp, checkoutCreateSession]
      repeat' split
      all_goals exact ht
    | webhook orderId userId pointsUsed eid1 eid2 =>
      simp only [applyOp, stripeWebhook]
      repeat' split
      any_goals exact ht
      all_goals first
        | exact List.mem_append_left _ ht
        | exact List.mem_append_left _ (List.mem_append_left _ ht)
    | deleteAccount uid => exact absurd rfl (hop uid)
  · intro db uid
    rfl

/-- Witness discharging the non-deletion hypothesis of the amended C2
theorem at a settlement request on a one-entry database. -/
theorem ledger_append_only_witness :
    (⟨"e1", "u1", 25, "EARN", "NEWSLETTER", none⟩ : PointsTransaction) ∈
      (applyOp ⟨[], [⟨"e1", "u1", 25, "EARN", "NEWSLETTER", none⟩], [], []⟩
        (Op.webhook "o9" "u1" 0 "f1" "f2")).points_transactions :=
  ledger_append_only_except_delete.1
    ⟨[], [⟨"e1", "u1", 25, "EARN", "NEWSLETTER", none⟩], [], []⟩
    (Op.webhook "o9" "u1" 0 "f1" "f2") (fun uid h => by cases h) _ (by simp)

/-- C1: the webhook handler is not idempotent.  A user with balance 50 and
one pending order of 10000 cents is settled once: the order is paid, one
EARN entry of 100 points is appended, the balance becomes 150.  Delivering
the same confirmation again for the now already paid order is not a no-op:
the handler appends a second EARN entry of 100 points and raises the
balance to 250. -/
theorem webhook_redelivery_reapplies_effects :
    stripeWebhook "o1" "u1" 0 "e1" "e2"
        ⟨[⟨"u1", "a@b", 50, "MOON"⟩], [],
         [⟨"o1", some "u1", "pending", 10000, 0, 0, 0, 10000⟩], []⟩
      = ⟨[⟨"u1", "a@b", 150, "MOON"⟩],
         [⟨"e2", "u1", 100, "EARN", "ORDER", some "o1"⟩],
         [⟨"o1", some "u1", "paid", 10000, 0, 0, 100, 10000⟩], []⟩
    ∧ stripeWebhook "o1" "u1" 0 "e3" "e4"
        ⟨[⟨"u1", "a@b", 150, "MOON"⟩],
         [⟨"e2", "u1", 100, "EARN", "ORDER", some "o1"⟩],
         [⟨"o1", some "u1", "paid", 10000, 0, 0, 100, 10000⟩], []⟩
      = ⟨[⟨"u1", "a@b", 250, "MOON"⟩],
         [⟨"e2", "u1", 100, "EARN", "ORDER", some "o1"⟩,
          ⟨"e4", "u1", 100, "EARN", "ORDER", some "o1"⟩],
         [⟨"o1", some "u1", "paid", 10000, 0, 0, 100, 10000⟩], []⟩ := by
  have hg50 : getTier (50 : Int) = tierMOON := getTier_eq_moon _ (by norm_num) (by norm_num)
  have hg150 : getTier (150 : Int) = tierMOON := getTier_eq_moon _ (by norm_num) (by norm_num)
  have hg250 : getTier (250 : Int) = tierMOON := getTier_eq_moon _ (by norm_num) (by norm_num)
  have hce : calculatePointsEarned 10000 tierMOON = 100 := by
    rw [calculatePointsEarned_moon]
    decide
  have hname : tierMOON.name = "MOON" := rfl
  constructor
  · simp [stripeWebhook, findUser, addBalance, setUserTier, hg50, hg150, hce, hname]
  · simp [stripeWebhook, findUser, addBalance, setUserTier, hg150, hg250, hce, hname]

/-- C8: after settlement the stored tier does not match the tier of the new
balance whenever points were spent.  A user with balance 600 (stored tier
ECLIPSE) settles an order of total 2400 using 120 points: the deduction
leaves 480, the earn step credits 24, so the new balance is 504 and its
tier is ECLIPSE; but the handler recomputes the stored tier from
480 - 120 + 24 = 384 (the balance it read had the deduction already
applied, so the points used are subtracted twice) and stores MOON. -/
theorem settlement_stores_tier_of_double_subtracted_balance :
    stripeWebhook "o1" "u1" 120 "e1" "e2"
        ⟨[⟨"u1", "a@b", 600, "ECLIPSE"⟩],
         [⟨"e0", "u1", 600, "ADJUST", "ADMIN", none⟩],
         [⟨"o1", some "u1", "pending", 3000, 600, 120, 0, 2400⟩], []⟩
      = ⟨[⟨"u1", "a@b", 504, "MOON"⟩],
         [⟨"e0", "u1", 600, "ADJUST", "ADMIN", none⟩,
          ⟨"e1", "u1", -120, "SPEND", "ORDER", some "o1"⟩,
          ⟨"e2", "u1", 24, "EARN", "ORDER", some "o1"⟩],
         [⟨"o1", some "u1", "paid", 3000, 600, 120, 24, 2400⟩], []⟩
    ∧ (getTier 504).name = "ECLIPSE" := by
  have hg480 : getTier (480 : Int) = tierMOON := getTier_eq_moon _ (by norm_num) (by norm_num)
  have hg384 : getTier (384 : Int) = tierMOON := getTier_eq_moon _ (by norm_num) (by norm_num)
  have hg504 : getTier (504 : Int) = tierECLIPSE :=
    getTier_eq_eclipse _ (by norm_num) (by norm_num)
  have hce : calculatePointsEarned 2400 tierMOON = 24 := by
    rw [calculatePointsEarned_moon]
    decide
  have hnameM : tierMOON.name = "MOON" := rfl
  have hnameE : tierECLIPSE.name = "ECLIPSE" := rfl
  constructor
  · simp [stripeWebhook, findUser, addBalance, setUserTier, hg480, hg384, hce, hnameM]
  · rw [hg504, hnameE]

/-- Marking an order paid moves it through `find?`: the lookup after the
status UPDATE returns the found order with status `paid`. -/
theorem find?_map_paid (orders : List OrderRow) (orderId : String) (ord : OrderRow)
    (h : orders.find? (fun o => o.id = orderId) = some ord) :
    (orders.map fun o : OrderRow =>
        if o.id = orderId then { o with status := "paid" } else o).find?
      (fun o => o.id = orderId) = some { ord with status := "paid" } := by
  induction orders with
  | nil => simp at h
  | cons o os ih =>
    by_cases ho : o.id = orderId
    · rw [List.find?_cons_of_pos _ (by simp [ho])] at h
      cases h
      rw [List.map_cons, if_pos ho, List.find?_cons_of_pos _ (by simp [ho])]
    · rw [List.find?_cons_of_neg _ (by simp [ho])] at h
      rw [List.map_cons, if_neg ho, List.find?_cons_of_neg _ (by simp [ho])]
      exact ih h

/-- A balance UPDATE moves through the user lookup. -/
theorem findUser_addBalance (us : List UserRow) (uid : String) (d : Int) (u : UserRow)
    (h : findUser uid us = some u) :
    findUser uid (addBalance uid d us) =
      some { u with points_balance := u.points_balance + d } := by
  induction us with
  | nil => simp [findUser] at h
  | cons v vs ih =>
    by_cases hv : v.id = uid
    · rw [findUser, List.find?_cons_of_pos _ (by simp [hv])] at h
      cases h
      rw [findUser, addBalance, List.map_cons, if_pos hv,
        List.find?_cons_of_pos _ (by simp [hv])]
    · rw [findUser, List.find?_cons_of_neg _ (by simp [hv])] at h
      rw [findUser, addBalance, List.map_cons, if_neg hv,
        List.find?_cons_of_neg _ (by simp [hv])]
      exact ih h

/-- A tier UPDATE moves through the user lookup. -/
theorem findUser_setUserTier (us : List UserRow) (uid tname : String) (u : UserRow)
    (h : findUser uid us = some u) :
    findUser uid (setUserTier uid tname us) = some { u with tier := tname } := by
  induction us with
  | nil => simp [findUser] at h
  | cons v vs ih =>
    by_cases hv : v.id = uid
    · rw [findUser, List.find?_cons_of_pos _ (by simp [hv])] at h
      cases h
      rw [findUser, setUserTier, List.map_cons, if_pos hv,
        List.find?_cons_of_pos _ (by simp [hv])]
    · rw [findUser, List.find?_cons_of_neg _ (by simp [hv])] at h
      rw [findUser, setUserTier, List.map_cons, if_neg hv,
        List.find?_cons_of_neg _ (by simp [hv])]
      exact ih h

/-- An order INSERT with a fresh id is what the lookup then returns. -/
theorem find?_append_fresh (orders : List OrderRow) (orderId : String) (x : OrderRow)
    (h : orders.any (fun o => o.id = orderId) = false) (hx : x.id = orderId) :
    (orders ++ [x]).find? (fun o => o.id = orderId) = some x := by
  have h' : ∀ o ∈ orders, o.id ≠ orderId := by
    intro o ho he
    have hth : orders.any (fun o => o.id = orderId) = true :=
      List.any_eq_true.mpr ⟨o, ho, by simp [he]⟩
    rw [h] at hth
    exact absurd hth (by decide)
  rw [List.find?_append]
  rw [List.find?_eq_none.mpr fun o ho => by simp [h' o ho]]
  rw [List.find?_cons_of_pos _ (by simp [hx])]
  rfl

/-- C10: points consumed at checkout are not rounded to a multiple of 20.
A checkout requesting r points with 0 < r up to the usable maximum records
`points_used = r` on the order while granting only `floor(r/20)*100` cents
of discount; settlement then appends a SPEND entry of amount -r and the
balance drops by all r points before the earn credit; and of the r points
deducted only r - r % 20 back the discount, so up to 19 points are
consumed without effect. -/
theorem checkout_consumes_unrounded_points :
    (∀ (db : DB) (uid : String) (u : UserRow) (items : List CartItem) (r : Int)
        (orderId : String),
      findUser uid db.users = some u →
      items ≠ [] →
      db.orders.any (fun o => o.id = orderId) = false →
      3000 ≤ subtotalOf items →
      0 < r →
      r ≤ (calculateMaxDiscount (subtotalOf items) u.points_balance).1 →
      (checkoutCreateSession (some uid) items (some r) orderId db).orders.find?
          (fun o => o.id = orderId) =
        some ⟨orderId, some uid, "pending", subtotalOf items, ⌊(r : Rat) / 20⌋ * 100, r, 0,
          subtotalOf items - ⌊(r : Rat) / 20⌋ * 100⟩)
    ∧ (∀ (db : DB) (orderId uid : String) (r : Int) (eid1 eid2 : String)
        (ord : OrderRow) (u : UserRow),
      orderId ≠ "" → uid ≠ "" → 0 < r →
      db.orders.find? (fun o => o.id = orderId) = some ord →
      findUser uid db.users = some u →
      (⟨eid1, uid, -r, "SPEND", "ORDER", some orderId⟩ : PointsTransaction) ∈
          (stripeWebhook orderId uid r eid1 eid2 db).points_transactions
      ∧ (findUser uid (stripeWebhook orderId uid r eid1 eid2 db).users).map
            (fun v => v.points_balance) =
          some (u.points_balance - r +
            calculatePointsEarned ord.total (getTier (u.points_balance - r))))
    ∧ (∀ r : Int, 0 < r → 20 * ((⌊(r : Rat) / 20⌋ * 100) / 100) = r - r % 20 ∧ r % 20 < 20) := by
  refine ⟨?_, ?_, ?_⟩
  · intro db uid u items r orderId hu hitems hfresh hmin hr hrmax
    have hmin' : POINTS_CONFIG.MIN_ORDER_FOR_REDEMPTION * 100 ≤ subtotalOf items := by
      rw [show POINTS_CONFIG.MIN_ORDER_FOR_REDEMPTION * 100 = (3000 : Int) by
        norm_num [POINTS_CONFIG]]
      exact hmin
    simp only [checkoutCreateSession]
    rw [if_neg hitems]
    simp only [hu, if_pos hr, if_pos hmin', min_eq_left hrmax, floor_div_PPE, floor_div_20]
    rw [if_neg (by simp [hfresh])]
    exact find?_append_fresh db.orders orderId _ hfresh rfl
  · intro db orderId uid r eid1 eid2 ord u ho hu0 hr hfind hfu
    have hsub : u.points_balance + -r = u.points_balance - r := by ring
    simp only [stripeWebhook]
    rw [if_neg ho, find?_map_paid db.orders orderId ord hfind]
    simp only [if_neg hu0, if_pos hr, findUser_addBalance db.users uid (-r) u hfu]
    constructor
    · split <;>
        exact List.mem_append_left _ (List.mem_append_right _ (List.mem_singleton_self _))
    · split
      · rw [findUser_setUserTier _ uid _ _
          (findUser_addBalance _ uid _ _ (findUser_addBalance db.users uid (-r) u hfu))]
        simp only [Option.map_some']
        rw [hsub]
      · rw [findUser_addBalance _ uid _ _ (findUser_addBalance db.users uid (-r) u hfu)]
        simp only [Option.map_some']
        rw [hsub]
  · intro r hr
    rw [floor_div_20]
    constructor
    · omega
    · omega
